import Mathlib

/-!
Shallow embedding of the MP00BOT trading-signal engine, for checking the
natural-language specification against the code.

Sources embedded:
  * `src/config.py`            — `ModeConfig` and the three mode profiles.
  * `src/monitoring_system.py` — `SignalMonitor`: hit predicates, trailing-stop
    maintenance, the per-signal status check and the expiry sweep.
  * `src/signal_engine.py`     — `SignalEngine`: entry/SL/TP/quantity
    computation, per-mode scoring loops.

Conventions:
  * Prices, ATR values and quantities are rationals (`ℚ`); Python floats carry
    no NaN in the modelled paths, and every modelled arithmetic operation stays
    exact.
  * Instants are rationals counting minutes; `datetime.utcnow()` becomes an
    explicit `now` argument.
  * Python dict lookups that can miss become `Option`; Python truthiness tests
    on floats (`if not current_price`) are modelled as `none`-or-zero tests.
  * Calls into the persistence store, the execution log and the cooldown
    registry are recorded as an explicit `Effect` list, in call order; the
    notification sink is outside the modelled core.
  * Values that the engine obtains from the external indicator library
    (`indicator_analysis.*`) enter the model as oracle inputs: one field per
    call site, carrying exactly what the code reads from the call.
-/

/-- Trade direction, the `'LONG' | 'SHORT'` strings of the source. -/
inductive Direction
  | LONG
  | SHORT
deriving DecidableEq, Repr

/-- Signal lifecycle status strings used by `monitoring_system.py`. -/
inductive Status
  | NEW
  | FILLED
  | WIN
  | LOSE
  | CANCELLED
deriving DecidableEq, Repr

/-- Close reasons passed to `db_manager.update_signal_status`. -/
inductive CloseReason
  | TP
  | SL
  | TRAILING
  | EXPIRED
deriving DecidableEq, Repr

/-- The three trading modes of `config.py`. -/
inductive Mode
  | SCALPING
  | INTRADAY
  | SWING
deriving DecidableEq, Repr

/-- Per-mode parameters, from the `ModeConfig` dataclass in `config.py`
(timeframe identifiers are not consulted by the modelled logic). -/
structure ModeConfig where
  adx_min : ℚ
  volume_boost_min : ℚ
  sl_atr_mult : ℚ
  tp_atr_mult_min : ℚ
  tp_atr_mult_max : ℚ
  trailing_pct : ℚ
  score_min : ℕ
  order_validity_minutes : ℚ
  cooldown_minutes : ℚ
deriving DecidableEq, Repr

/-- The three mode profiles constructed in `Config.__post_init__`. -/
def modeConfig : Mode → ModeConfig
  | Mode.SCALPING =>
      { adx_min := 22, volume_boost_min := 15/100, sl_atr_mult := 1,
        tp_atr_mult_min := 3/2, tp_atr_mult_max := 2, trailing_pct := 3/1000,
        score_min := 55, order_validity_minutes := 15, cooldown_minutes := 15 }
  | Mode.INTRADAY =>
      { adx_min := 20, volume_boost_min := 20/100, sl_atr_mult := 5/4,
        tp_atr_mult_min := 2, tp_atr_mult_max := 3, trailing_pct := 5/1000,
        score_min := 60, order_validity_minutes := 75, cooldown_minutes := 60 }
  | Mode.SWING =>
      { adx_min := 18, volume_boost_min := 10/100, sl_atr_mult := 3/2,
        tp_atr_mult_min := 5/2, tp_atr_mult_max := 7/2, trailing_pct := 8/1000,
        score_min := 65, order_validity_minutes := 720, cooldown_minutes := 240 }

/-- `RISK_PER_TRADE` default from `config.py`. -/
def risk_per_trade : ℚ := 1/100

/-- `INITIAL_EQUITY` default from `config.py`. -/
def initial_equity : ℚ := 10000

/-- The fields of a persisted `Signal` that `SignalMonitor` reads or writes.
`fill_price` is `none` until the entry fills; `validity_until` is an instant
in minutes. -/
structure Signal where
  code : String
  symbol : String
  mode : Mode
  direction : Direction
  entry_price : ℚ
  stop_loss : ℚ
  take_profit : ℚ
  quantity : ℚ
  atr_value : ℚ
  status : Status
  fill_price : Option ℚ
  validity_until : ℚ
deriving DecidableEq, Repr

/-- A call the monitor makes into the persistence layer, recorded in call
order: `db_manager.update_signal_status`, `db_manager.add_signal_execution`
or `db_manager.add_cooldown`. -/
inductive Effect
  | updateStatus (code : String) (status : Status) (closePrice : Option ℚ)
      (closeReason : Option CloseReason) (fillPrice : Option ℚ)
  | addExecution (code : String) (execType : String) (price : ℚ) (qty : ℚ)
  | addCooldown (symbol : String) (mode : Mode) (reason : String) (cooldown_until : ℚ)
deriving DecidableEq, Repr

/-- Whether an effect is a cooldown registration. -/
def Effect.isCooldown : Effect → Bool
  | Effect.addCooldown _ _ _ _ => true
  | _ => false

/-- `SignalMonitor._is_entry_hit`: entry fill test with the fixed 0.1%
tolerance band. -/
def is_entry_hit (s : Signal) (current_price : ℚ) : Bool :=
  let tolerance : ℚ := 1/1000
  match s.direction with
  | Direction.LONG => current_price ≤ s.entry_price * (1 + tolerance)
  | Direction.SHORT => current_price ≥ s.entry_price * (1 - tolerance)

/-- `SignalMonitor._is_take_profit_hit`. -/
def is_take_profit_hit (s : Signal) (current_price : ℚ) : Bool :=
  match s.direction with
  | Direction.LONG => current_price ≥ s.take_profit
  | Direction.SHORT => current_price ≤ s.take_profit

/-- `SignalMonitor._is_stop_loss_hit`. -/
def is_stop_loss_hit (s : Signal) (current_price : ℚ) : Bool :=
  match s.direction with
  | Direction.LONG => current_price ≤ s.stop_loss
  | Direction.SHORT => current_price ≥ s.stop_loss

/-- `SignalMonitor._is_trailing_stop_hit`. The source fetches the trailing
stop with `.get` and treats a missing or zero value (`if not trailing_stop`)
as "no hit". -/
def is_trailing_stop_hit (s : Signal) (trailing : Option ℚ) (current_price : ℚ) : Bool :=
  match trailing with
  | none => false
  | some t =>
    if t = 0 then false
    else
      match s.direction with
      | Direction.LONG => current_price ≤ t
      | Direction.SHORT => current_price ≥ t

/-- `SignalMonitor._update_trailing_stop`, reduced to its per-signal update:
recompute the distance from the current price and the mode's trailing
percentage, and adopt the candidate only if it tightens the stop. -/
def update_trailing_stop (d : Direction) (trailing_pct : ℚ) (current_trailing : ℚ)
    (current_price : ℚ) : ℚ :=
  let trailing_distance := current_price * trailing_pct
  match d with
  | Direction.LONG =>
    let new_trailing := current_price - trailing_distance
    if new_trailing > current_trailing then new_trailing else current_trailing
  | Direction.SHORT =>
    let new_trailing := current_price + trailing_distance
    if new_trailing < current_trailing then new_trailing else current_trailing

/-- `SignalMonitor._initialize_trailing_stop`: half-ATR distance from the
fill price, clamped to start no worse than the original stop-loss. -/
def init_trailing_stop (s : Signal) (fill_price : ℚ) : ℚ :=
  let cfg := modeConfig s.mode
  let trailing_distance := s.atr_value * cfg.sl_atr_mult * (1/2)
  match s.direction with
  | Direction.LONG => max (fill_price - trailing_distance) s.stop_loss
  | Direction.SHORT => min (fill_price + trailing_distance) s.stop_loss

/-- `SignalMonitor._was_profitable_before_trailing`: the trailing stop
(defaulting to the original stop-loss when absent) is strictly better than
the original stop-loss. -/
def was_profitable_before_trailing (s : Signal) (trailing : Option ℚ) : Bool :=
  match s.direction with
  | Direction.LONG => trailing.getD s.stop_loss > s.stop_loss
  | Direction.SHORT => trailing.getD s.stop_loss < s.stop_loss

/-- `SignalMonitor._handle_signal_expired`: a single status update to
CANCELLED with close reason EXPIRED. The handler does not mutate the local
signal object and does not remove it from the active set. -/
def handle_signal_expired (s : Signal) : List Effect :=
  [Effect.updateStatus s.code Status.CANCELLED none (some CloseReason.EXPIRED) none]

/-- `SignalMonitor._handle_take_profit`: WIN with close reason TP, plus the
execution record. -/
def handle_take_profit (s : Signal) (close_price : ℚ) : List Effect :=
  [Effect.updateStatus s.code Status.WIN (some close_price) (some CloseReason.TP) none,
   Effect.addExecution s.code "TP" close_price s.quantity]

/-- `SignalMonitor._handle_stop_loss`: LOSE with close reason SL, the
execution record, and a cooldown for (symbol, mode) lasting the mode's
cooldown duration. -/
def handle_stop_loss (now : ℚ) (s : Signal) (close_price : ℚ) : List Effect :=
  [Effect.updateStatus s.code Status.LOSE (some close_price) (some CloseReason.SL) none,
   Effect.addExecution s.code "SL" close_price s.quantity,
   Effect.addCooldown s.symbol s.mode "LOSS"
     (now + (modeConfig s.mode).cooldown_minutes)]

/-- `SignalMonitor._handle_trailing_stop`: WIN or LOSE (decided by
`_was_profitable_before_trailing`) with close reason TRAILING, plus the
execution record. No cooldown is registered on this path. -/
def handle_trailing_stop (s : Signal) (trailing : Option ℚ) (close_price : ℚ) :
    List Effect :=
  let result_type :=
    if was_profitable_before_trailing s trailing then Status.WIN else Status.LOSE
  [Effect.updateStatus s.code result_type (some close_price)
     (some CloseReason.TRAILING) none,
   Effect.addExecution s.code "TRAILING" close_price s.quantity]

/-- Result of one `SignalMonitor._check_signal_status` call: the persistence
calls made, the (possibly mutated) local signal object, the signal's entry in
the trailing-stop map afterwards, and whether the caller should remove the
signal from monitoring (the function's boolean return). -/
structure CheckResult where
  effects : List Effect
  signal : Signal
  trailing : Option ℚ
  remove : Bool
deriving DecidableEq, Repr

/-- `SignalMonitor._handle_signal_filled`: status update to FILLED with the
fill price, local mutation of the signal object, trailing-stop creation, and
the ENTRY execution record. -/
def handle_signal_filled (s : Signal) (fill_price : ℚ) : CheckResult :=
  let s2 : Signal := { s with status := Status.FILLED, fill_price := some fill_price }
  { effects :=
      [Effect.updateStatus s.code Status.FILLED none none (some fill_price),
       Effect.addExecution s.code "ENTRY" fill_price s.quantity],
    signal := s2,
    trailing := some (init_trailing_stop s2 fill_price),
    remove := false }

/-- `SignalMonitor._check_signal_status` for one signal, against the cached
price for its symbol (`none` when the cache has no entry) and its current
entry in the trailing-stop map. `now` is the current instant in minutes. -/
def check_signal_status (now : ℚ) (price : Option ℚ) (trailing : Option ℚ)
    (s : Signal) : CheckResult :=
  let noChange : CheckResult :=
    { effects := [], signal := s, trailing := trailing, remove := false }
  match price with
  | none => noChange
  | some current_price =>
    if current_price = 0 then noChange
    else if s.status = Status.NEW then
      if now > s.validity_until then
        { effects := handle_signal_expired s, signal := s, trailing := trailing,
          remove := true }
      else if is_entry_hit s current_price then
        handle_signal_filled s current_price
      else noChange
    else if s.status = Status.FILLED then
      if is_take_profit_hit s current_price then
        { effects := handle_take_profit s current_price, signal := s,
          trailing := trailing, remove := true }
      else
        match trailing with
        | some t =>
          if is_trailing_stop_hit s (some t) current_price then
            { effects := handle_trailing_stop s (some t) current_price,
              signal := s, trailing := some t, remove := true }
          else
            { effects := [], signal := s,
              trailing :=
                some (update_trailing_stop s.direction
                  (modeConfig s.mode).trailing_pct t current_price),
              remove := false }
        | none =>
          if is_stop_loss_hit s current_price then
            { effects := handle_stop_loss now s current_price, signal := s,
              trailing := none, remove := true }
          else noChange
    else noChange

/-- One pass of `SignalMonitor._check_expired_signals`: collect the NEW
signals whose validity deadline has passed and run `_handle_signal_expired`
on each. The source mutates neither the signal objects nor the active-signal
collection in this loop, so the pass returns the signal list unchanged
together with the persistence calls it made. -/
def check_expired_pass (now : ℚ) (signals : List Signal) :
    List Signal × List Effect :=
  let expired := signals.filter
    (fun s => decide (s.status = Status.NEW) && decide (now > s.validity_until))
  (signals, (expired.map handle_signal_expired).flatten)

/-- Python `round(x, 6)` (round half to even at the sixth decimal), used by
`SignalEngine._calculate_quantity`. -/
def pyRound6 (q : ℚ) : ℚ :=
  let scaled := q * 1000000
  let f : ℤ := Int.floor scaled
  let frac := scaled - f
  let n : ℤ :=
    if frac < 1/2 then f
    else if frac > 1/2 then f + 1
    else if f % 2 = 0 then f else f + 1
  (n : ℚ) / 1000000

/-- Confidence buckets of `SignalEngine._get_confidence_level`. -/
inductive Confidence
  | HIGH
  | MEDIUM
  | LOW
deriving DecidableEq, Repr

/-- `SignalEngine._get_confidence_level`: fixed 80/65 thresholds. -/
def get_confidence_level (score : ℕ) : Confidence :=
  if score ≥ 80 then Confidence.HIGH
  else if score ≥ 65 then Confidence.MEDIUM
  else Confidence.LOW

/-- `SignalEngine._calculate_entry_price`, from the last close and the latest
mid-length trend average (`ema_50`, `none` when the value is NaN — the
source's `pd.notna` test).

SCALPING snaps to the average when `|close − ema| / close ≤ 0.002`; INTRADAY
prefers the average whenever it is available; SWING always returns the last
close. (At `close = 0` the source would raise and return `None`; the model's
total division returns a junk value there, and every theorem touching the
SCALPING ratio carries a positivity hypothesis instead.) -/
def calculate_entry_price (close : ℚ) (ema_50 : Option ℚ) (mode : Mode) : ℚ :=
  match mode with
  | Mode.SCALPING =>
    match ema_50 with
    | some e => if |close - e| / close ≤ 2/1000 then e else close
    | none => close
  | Mode.INTRADAY =>
    match ema_50 with
    | some e => e
    | none => close
  | Mode.SWING => close

/-- `SignalEngine._calculate_sl_tp`. With an ATR value available the stop and
target sit at the mode's ATR multiples on the direction-appropriate sides;
when reading the ATR fails (`none`), the source's exception handler returns
the fixed pair `(entry × 0.98, entry × 1.02)` for both directions. -/
def calculate_sl_tp (atr : Option ℚ) (entry_price : ℚ) (d : Direction)
    (cfg : ModeConfig) : ℚ × ℚ :=
  match atr with
  | some a =>
    match d with
    | Direction.LONG =>
      (entry_price - a * cfg.sl_atr_mult, entry_price + a * cfg.tp_atr_mult_min)
    | Direction.SHORT =>
      (entry_price + a * cfg.sl_atr_mult, entry_price - a * cfg.tp_atr_mult_min)
  | none => (entry_price * (98/100), entry_price * (102/100))

/-- `SignalEngine._calculate_quantity`: risk amount over stop distance,
rounded to six decimals; an explicit zero stop distance returns quantity 0
(the 0.001 constant in the source is the fallback of the exception handler
only, which no modelled path reaches). -/
def calculate_quantity (entry_price : ℚ) (stop_loss : ℚ) : ℚ :=
  let risk_amount := initial_equity * risk_per_trade
  let stop_distance := |entry_price - stop_loss|
  if stop_distance = 0 then 0
  else pyRound6 (risk_amount / stop_distance)

/-- The fields of the scorer's `SignalResult` that the modelled logic
computes (identifier, symbol, note and timestamp fields are omitted). -/
structure ScoredCandidate where
  mode : Mode
  direction : Direction
  entry_price : ℚ
  stop_loss : ℚ
  take_profit : ℚ
  quantity : ℚ
  score : ℕ
  confidence : Confidence
deriving DecidableEq, Repr

/-- The candidate-construction tail shared by the three detection loops:
compute the entry price, and — only when it is truthy (`if entry_price:`) —
derive stop, target, quantity and confidence.

The source's `SignalResult(...)` tail additionally re-reads the primary
snapshot's latest ATR cell (`atr_value=primary_latest['atr']`) and several
note fields; when the ATR column is missing outright, that read raises and
the whole detection method returns `None` through its own exception handler.
That situation cannot reach the loop in the first place: the indicator pass
(`calculate_all_indicators`) creates the ATR column (line 183) before the
volume-ratio column (line 210) inside one try block, so a missing ATR column
entails a missing volume ratio, and `check_volume_boost` then fails the
volume gate, aborting the method before any direction is scored. The model
therefore passes `atr` only to the stop/target computation and omits the
aborting re-read, which lies on an unreachable branch; `atr = none` inputs
to this function correspond to no reachable source execution that returns a
candidate. -/
def build_candidate (m : Mode) (close : ℚ) (ema_50 : Option ℚ) (atr : Option ℚ)
    (d : Direction) (score : ℕ) : Option ScoredCandidate :=
  let entry_price := calculate_entry_price close ema_50 m
  if entry_price = 0 then none
  else
    let sl_tp := calculate_sl_tp atr entry_price d (modeConfig m)
    some { mode := m, direction := d, entry_price := entry_price,
           stop_loss := sl_tp.1, take_profit := sl_tp.2,
           quantity := calculate_quantity entry_price sl_tp.1,
           score := score, confidence := get_confidence_level score }

/-- The `for direction in ['LONG', 'SHORT']` loop shared by the three
detection methods: score LONG first, and return its candidate as soon as the
score clears the mode minimum and the entry price is truthy; otherwise fall
through to SHORT. -/
def detect_loop (score_fn : Direction → ℕ) (score_min : ℕ)
    (build : Direction → ℕ → Option ScoredCandidate) : Option ScoredCandidate :=
  let tryDir := fun d =>
    if score_fn d ≥ score_min then build d (score_fn d) else none
  match tryDir Direction.LONG with
  | some c => some c
  | none => tryDir Direction.SHORT

/-- Oracle inputs consumed by `SignalEngine._detect_scalping_signal` past its
abort gates: the (non-NEUTRAL) trend bias, the confirmation-timeframe ADX,
the volume gate result, the per-direction indicator checks, and the latest
close / `ema_50` / `atr` readings of the primary snapshot. -/
structure ScalpInputs where
  trend_bias : Direction
  adx : ℚ
  volume_valid : Bool
  rsi_cross_up : Bool
  rsi_cross_down : Bool
  stoch_long : Bool
  stoch_short : Bool
  ema_retest : Bool
  bb_long : Bool
  bb_short : Bool
  close : ℚ
  ema_50 : Option ℚ
  atr : Option ℚ
deriving DecidableEq, Repr

/-- Score accumulation of `_detect_scalping_signal` for one direction. -/
def scalping_score (i : ScalpInputs) (d : Direction) : ℕ :=
  (if i.trend_bias = d then 20 else 0)
  + (if i.adx ≥ (modeConfig Mode.SCALPING).adx_min then 10 else 0)
  + (if (match d with | Direction.LONG => i.rsi_cross_up | Direction.SHORT => i.rsi_cross_down)
      then 10 else 0)
  + (if (match d with | Direction.LONG => i.stoch_long | Direction.SHORT => i.stoch_short)
      then 10 else 0)
  + (if i.volume_valid then 10 else 0)
  + (if i.ema_retest then 10 else 0)
  + (if (match d with | Direction.LONG => i.bb_long | Direction.SHORT => i.bb_short)
      then 5 else 0)

/-- `SignalEngine._detect_scalping_signal`, the direction loop. -/
def detect_scalping_signal (i : ScalpInputs) : Option ScoredCandidate :=
  detect_loop (scalping_score i) (modeConfig Mode.SCALPING).score_min
    (build_candidate Mode.SCALPING i.close i.ema_50 i.atr)

/-- Oracle inputs of `SignalEngine._detect_intraday_signal`. `fib_conf`
models `_check_fib_confluence`, whose two direction branches compute the
same swing range and the same zone test, so its value does not depend on the
direction; `rsi` is the confirmation-row RSI (`none` for NaN), tested against
the same 30–70 band for both directions by `_check_rsi_healthy`. -/
structure IntradayInputs where
  trend_bias : Direction
  macd_primary_up : Bool
  macd_primary_down : Bool
  macd_confirm_up : Bool
  macd_confirm_down : Bool
  volume_valid : Bool
  ema_retest : Bool
  fib_conf : Bool
  adx : Option ℚ
  rsi : Option ℚ
  close : ℚ
  ema_50 : Option ℚ
  atr : Option ℚ
deriving DecidableEq, Repr

/-- Score accumulation of `_detect_intraday_signal` for one direction. -/
def intraday_score (i : IntradayInputs) (d : Direction) : ℕ :=
  (if i.trend_bias = d then 20 else 0)
  + (if (match d with
        | Direction.LONG => i.macd_primary_up || i.macd_confirm_up
        | Direction.SHORT => i.macd_primary_down || i.macd_confirm_down)
      then 20 else 0)
  + (if i.volume_valid then 10 else 0)
  + (if i.ema_retest then 10 else 0)
  + (if i.fib_conf then 10 else 0)
  + (match i.adx with
     | some a => if a ≥ (modeConfig Mode.INTRADAY).adx_min then 10 else 0
     | none => 0)
  + (match i.rsi with
     | some r => if 30 ≤ r ∧ r ≤ 70 then 5 else 0
     | none => 0)

/-- `SignalEngine._detect_intraday_signal`, the direction loop. -/
def detect_intraday_signal (i : IntradayInputs) : Option ScoredCandidate :=
  detect_loop (intraday_score i) (modeConfig Mode.INTRADAY).score_min
    (build_candidate Mode.INTRADAY i.close i.ema_50 i.atr)

/-- Oracle inputs of `SignalEngine._detect_swing_signal`. `vp_conf` models
`_check_volume_profile_confluence`, which ignores the direction argument
(current volume against 1.2× the recent average). -/
structure SwingInputs where
  trend_bias : Direction
  macd_up : Bool
  macd_down : Bool
  obv_long : Bool
  obv_short : Bool
  volume_valid : Bool
  adx : Option ℚ
  vp_conf : Bool
  swing_conf_long : Bool
  swing_conf_short : Bool
  close : ℚ
  ema_50 : Option ℚ
  atr : Option ℚ
deriving DecidableEq, Repr

/-- Score accumulation of `_detect_swing_signal` for one direction. -/
def swing_score (i : SwingInputs) (d : Direction) : ℕ :=
  (if i.trend_bias = d then 20 else 0)
  + (if (match d with | Direction.LONG => i.macd_up | Direction.SHORT => i.macd_down)
      then 20 else 0)
  + (if (match d with | Direction.LONG => i.obv_long | Direction.SHORT => i.obv_short)
      then 15 else 0)
  + (if i.volume_valid then 10 else 0)
  + (match i.adx with
     | some a => if a ≥ (modeConfig Mode.SWING).adx_min then 10 else 0
     | none => 0)
  + (if i.vp_conf then 10 else 0)
  + (if (match d with | Direction.LONG => i.swing_conf_long | Direction.SHORT => i.swing_conf_short)
      then 5 else 0)

/-- `SignalEngine._detect_swing_signal`, the direction loop. -/
def detect_swing_signal (i : SwingInputs) : Option ScoredCandidate :=
  detect_loop (swing_score i) (modeConfig Mode.SWING).score_min
    (build_candidate Mode.SWING i.close i.ema_50 i.atr)

/-! ### Concrete instances used by counterexamples and witnesses -/

/-- A FILLED LONG scalping signal: entry 100, stop-loss 95, take-profit 110. -/
def exSigL : Signal :=
  { code := "S1", symbol := "BTCUSDT", mode := Mode.SCALPING,
    direction := Direction.LONG, entry_price := 100, stop_loss := 95,
    take_profit := 110, quantity := 2, atr_value := 5, status := Status.FILLED,
    fill_price := some 100, validity_until := 1000 }

/-- A NEW intraday signal with validity deadline at minute 100. -/
def exSigNew : Signal :=
  { code := "S2", symbol := "ETHUSDT", mode := Mode.INTRADAY,
    direction := Direction.LONG, entry_price := 100, stop_loss := 95,
    take_profit := 110, quantity := 1, atr_value := 4, status := Status.NEW,
    fill_price := none, validity_until := 100 }

/-- Intraday oracle inputs with the primary ATR reading exactly 0 and LONG
scoring 85. Reachable when the fetched primary (15m) window is entirely flat
at 100 (every true range 0, so the windowed ATR is exactly 0; the 50-period
trend average then equals the close, the retracement zone degenerates to the
close, and the retest check holds) while the confirmation (1h) window — which
spans four times as much history — still shows an older advance: close above
its 200-period average (LONG bias), a momentum-convergence cross on the
confirmation frame during the flat stretch, residual trend strength 25, and
mid-range RSI; the volume gate only needs a volume spike, independent of
price movement. -/
def exIntraZeroAtr : IntradayInputs :=
  { trend_bias := Direction.LONG, macd_primary_up := false,
    macd_primary_down := false, macd_confirm_up := true,
    macd_confirm_down := false, volume_valid := true, ema_retest := true,
    fib_conf := true, adx := some 25, rsi := some 50, close := 100,
    ema_50 := some 100, atr := some 0 }

/-! ### Claim theorems -/

/-- C1 (counterexample). A FILLED LONG signal whose trailing stop sits exactly
at the original stop-loss is closed with outcome LOSE and close reason
TRAILING when price crosses it, yet none of the persistence calls of that
status check is a cooldown registration — refuting the claim that every
LOSE close via an unfavorable TRAILING hit registers a cooldown. -/
theorem C1_counterexample :
    (check_signal_status 0 (some 94) (some 95) exSigL).effects =
      [Effect.updateStatus "S1" Status.LOSE (some 94) (some CloseReason.TRAILING) none,
       Effect.addExecution "S1" "TRAILING" 94 2]
    ∧ ∀ e ∈ (check_signal_status 0 (some 94) (some 95) exSigL).effects,
        e.isCooldown = false := by
  decide

/-- C2 (code evaluated at the failing input). A NEW signal whose validity
deadline (minute 100) has passed and whose symbol has no cached price: the
status-evaluation check does nothing (it returns before the expiry test when
no price is cached), while the expiry sweep issues the CANCELLED/EXPIRED
status update — and, because the sweep neither removes the signal from the
active set nor changes its local status, the very next sweep pass issues the
same EXPIRED transition for the same signal again, contradicting the
exactly-once requirement. -/
theorem C2_bug_eval :
    check_signal_status 101 none none exSigNew =
      { effects := [], signal := exSigNew, trailing := none, remove := false }
    ∧ (check_expired_pass 101 [exSigNew]).2 =
      [Effect.updateStatus "S2" Status.CANCELLED none (some CloseReason.EXPIRED) none]
    ∧ (check_expired_pass 102 (check_expired_pass 101 [exSigNew]).1).2 =
      [Effect.updateStatus "S2" Status.CANCELLED none (some CloseReason.EXPIRED) none] := by
  decide

/-- C3 (counterexample). Intraday inputs whose LONG direction clears the
score bar while the primary ATR reading is exactly 0: the scorer returns a
LONG candidate whose stop-loss, entry price and take-profit all coincide at
100, refuting `stop_loss < entry_price < take_profit`. (The ATR-unavailable
fallback, by contrast, never surfaces in a returned candidate: a missing ATR
column entails a missing volume-ratio column, which fails the volume gate
before any direction is scored.) -/
theorem C3_counterexample :
    detect_intraday_signal exIntraZeroAtr =
      some { mode := Mode.INTRADAY, direction := Direction.LONG, entry_price := 100,
             stop_loss := 100, take_profit := 100, quantity := 0, score := 85,
             confidence := Confidence.HIGH }
    ∧ ∀ c ∈ (detect_intraday_signal exIntraZeroAtr).toList,
        ¬(c.stop_loss < c.entry_price ∧ c.entry_price < c.take_profit) := by
  have hdet : detect_intraday_signal exIntraZeroAtr =
      some { mode := Mode.INTRADAY, direction := Direction.LONG, entry_price := 100,
             stop_loss := 100, take_profit := 100, quantity := 0, score := 85,
             confidence := Confidence.HIGH } := by
    norm_num [detect_intraday_signal, detect_loop, intraday_score, exIntraZeroAtr,
      build_candidate, calculate_entry_price, calculate_sl_tp, calculate_quantity,
      pyRound6, modeConfig, get_confidence_level, initial_equity, risk_per_trade]
  refine ⟨hdet, ?_⟩
  intro c hc
  rw [hdet] at hc
  simp only [Option.toList_some, List.mem_singleton] at hc
  subst hc
  norm_num

/-- C4 (counterexample). In SWING mode the 50-period trend average is
available (90) and differs from the last close (100), yet the scorer's entry
price is the last close: `_calculate_entry_price` never consults the trend
average for SWING, refuting the claim that the slow mode prefers the trend
average whenever it is available. -/
theorem C4_counterexample :
    calculate_entry_price 100 (some 90) Mode.SWING = 100
    ∧ calculate_entry_price 100 (some 90) Mode.SWING ≠ 90 := by
  decide

/-- C5 (counterexample). With entry price equal to stop-loss the stop
distance is zero and `_calculate_quantity` returns quantity 0 — not a
positive minimum quantity, refuting the claim that the degenerate case falls
back to a defined positive minimum. -/
theorem C5_counterexample :
    calculate_quantity 100 100 = 0
    ∧ ¬(0 < calculate_quantity 100 100) := by
  norm_num [calculate_quantity]

/-- C10. When the price cache holds no entry for the signal's symbol, or
holds the value 0 (falsy, treated as absent by `if not current_price`), one
status-evaluation pass over the signal makes no persistence call, leaves the
signal object and its trailing-stop entry unchanged, and does not remove the
signal from monitoring. -/
theorem C10_no_price_no_change (now : ℚ) (price : Option ℚ) (trailing : Option ℚ)
    (s : Signal) (h : price = none ∨ price = some 0) :
    check_signal_status now price trailing s =
      { effects := [], signal := s, trailing := trailing, remove := false } := by
  rcases h with h | h <;> subst h <;> simp [check_signal_status]

/-- Witness for C10 at a concrete cached-zero price and a concrete signal. -/
theorem C10_witness :
    check_signal_status 0 (some 0) (some 95) exSigL =
      { effects := [], signal := exSigL, trailing := some 95, remove := false } :=
  C10_no_price_no_change 0 (some 0) (some 95) exSigL (Or.inr rfl)

/-- The trailing stop after a sequence of price ticks, each applied by
`SignalMonitor._update_trailing_stop`. -/
def trailing_after (d : Direction) (pct : ℚ) (cur : ℚ) (ticks : List ℚ) : ℚ :=
  ticks.foldl (update_trailing_stop d pct) cur

/-- A single trailing-stop update never lowers a LONG trailing stop. -/
theorem update_trailing_stop_long_le (pct cur p : ℚ) :
    cur ≤ update_trailing_stop Direction.LONG pct cur p := by
  unfold update_trailing_stop
  dsimp only
  split
  · exact le_of_lt (by assumption)
  · exact le_refl cur

/-- A single trailing-stop update never raises a SHORT trailing stop. -/
theorem update_trailing_stop_short_ge (pct cur p : ℚ) :
    update_trailing_stop Direction.SHORT pct cur p ≤ cur := by
  unfold update_trailing_stop
  dsimp only
  split
  · exact le_of_lt (by assumption)
  · exact le_refl cur

/-- C6. Each trailing-stop update either leaves the stored value unchanged
or moves it strictly in the risk-reducing direction (up for LONG, down for
SHORT), and hence across any sequence of price ticks the LONG trailing stop
never decreases and the SHORT trailing stop never increases. -/
theorem C6_trailing_monotonic (pct cur p : ℚ) (ticks : List ℚ) :
    (update_trailing_stop Direction.LONG pct cur p = cur
      ∨ cur < update_trailing_stop Direction.LONG pct cur p)
    ∧ (update_trailing_stop Direction.SHORT pct cur p = cur
      ∨ update_trailing_stop Direction.SHORT pct cur p < cur)
    ∧ cur ≤ trailing_after Direction.LONG pct cur ticks
    ∧ trailing_after Direction.SHORT pct cur ticks ≤ cur := by
  refine ⟨?_, ?_, ?_, ?_⟩
  · unfold update_trailing_stop
    dsimp only
    split
    · exact Or.inr (by assumption)
    · exact Or.inl rfl
  · unfold update_trailing_stop
    dsimp only
    split
    · exact Or.inr (by assumption)
    · exact Or.inl rfl
  · induction ticks generalizing cur with
    | nil => exact le_refl cur
    | cons q qs ih =>
      exact le_trans (update_trailing_stop_long_le pct cur q)
        (ih (update_trailing_stop Direction.LONG pct cur q))
  · induction ticks generalizing cur with
    | nil => exact le_refl cur
    | cons q qs ih =>
      exact le_trans (ih (update_trailing_stop Direction.SHORT pct cur q))
        (update_trailing_stop_short_ge pct cur q)

/-- C5 (amended). When the stop distance `|entry − stop_loss|` is zero, the
quantity calculation returns quantity 0 and proceeds without raising (the
modelled function is total); the positive 0.001 minimum of the source is the
fallback of the exception handler only. -/
theorem C5_amended (entry_price stop_loss : ℚ) (h : |entry_price - stop_loss| = 0) :
    calculate_quantity entry_price stop_loss = 0 := by
  unfold calculate_quantity
  simp [h]

/-- Witness for C5 (amended) at a concrete degenerate input. -/
theorem C5_amended_witness : calculate_quantity 100 100 = 0 :=
  C5_amended 100 100 (by norm_num)

/-- C4 (amended). The scorer's entry price: for SCALPING, the 50-period
trend average when the last close is within 0.2% of it (the distance
measured relative to the close), else the last close; for INTRADAY, the
trend average whenever available, else the last close; for SWING, always the
last close, regardless of the trend average. -/
theorem C4_amended (close e : ℚ) :
    calculate_entry_price close none Mode.SCALPING = close
    ∧ (|close - e| / close ≤ 2/1000 →
        calculate_entry_price close (some e) Mode.SCALPING = e)
    ∧ (¬(|close - e| / close ≤ 2/1000) →
        calculate_entry_price close (some e) Mode.SCALPING = close)
    ∧ calculate_entry_price close (some e) Mode.INTRADAY = e
    ∧ calculate_entry_price close none Mode.INTRADAY = close
    ∧ (∀ ema : Option ℚ, calculate_entry_price close ema Mode.SWING = close) := by
  refine ⟨rfl, ?_, ?_, rfl, rfl, fun ema => rfl⟩
  · intro h
    simp [calculate_entry_price, h]
  · intro h
    simp [calculate_entry_price, h]

/-- Witness for C4 (amended): a close of 100 within 0.2% of a trend average
of 99.95 snaps to the average in SCALPING mode. -/
theorem C4_amended_witness :
    calculate_entry_price 100 (some (1999/20)) Mode.SCALPING = 1999/20 :=
  (C4_amended 100 (1999/20)).2.1 (by
    rw [show (100 : ℚ) - 1999/20 = 1/20 by norm_num, abs_of_nonneg (by norm_num)]
    norm_num)

/-- The WIN/LOSE heuristic on a trailing hit, unfolded: profitable iff the
trailing stop is strictly better than the original stop-loss. -/
theorem was_profitable_iff (s : Signal) (t : ℚ) :
    was_profitable_before_trailing s (some t) = true ↔
      (match s.direction with
       | Direction.LONG => s.stop_loss < t
       | Direction.SHORT => t < s.stop_loss) := by
  cases hd : s.direction <;> simp [was_profitable_before_trailing, hd]

/-- C7. When a FILLED signal's status check closes it because price crossed
the active trailing stop (take-profit not hit, trailing stop `t` present and
nonzero, hit condition true), the first persistence call records close
reason TRAILING with an outcome that is WIN precisely when the trailing stop
is strictly better than the original stop-loss (LONG: `t >` original SL;
SHORT: `t <` original SL), and LOSE otherwise. -/
theorem C7_trailing_outcome (s : Signal) (now p t : ℚ)
    (hs : s.status = Status.FILLED) (hp : p ≠ 0)
    (htp : is_take_profit_hit s p = false)
    (hhit : is_trailing_stop_hit s (some t) p = true) :
    ∃ st rest,
      (check_signal_status now (some p) (some t) s).effects =
        Effect.updateStatus s.code st (some p) (some CloseReason.TRAILING) none :: rest
      ∧ (st = Status.WIN ↔
          (match s.direction with
           | Direction.LONG => s.stop_loss < t
           | Direction.SHORT => t < s.stop_loss)) := by
  refine ⟨if was_profitable_before_trailing s (some t) then Status.WIN else Status.LOSE,
    [Effect.addExecution s.code "TRAILING" p s.quantity], ?_, ?_⟩
  · simp [check_signal_status, hs, hp, htp, hhit, handle_trailing_stop]
  · rw [← was_profitable_iff s t]
    by_cases hb : was_profitable_before_trailing s (some t) = true
    · simp [hb]
    · simp only [Bool.not_eq_true] at hb
      simp [hb]

/-- Witness for C7: a FILLED LONG signal with original stop-loss 95 and
trailing stop 96 hit at price 96 closes with reason TRAILING, and the
outcome is WIN because 95 < 96. -/
theorem C7_witness :
    ∃ st rest,
      (check_signal_status 0 (some 96) (some 96) exSigL).effects =
        Effect.updateStatus "S1" st (some 96) (some CloseReason.TRAILING) none :: rest
      ∧ (st = Status.WIN ↔ (95 : ℚ) < 96) :=
  C7_trailing_outcome exSigL 0 96 96 rfl (by norm_num) (by decide) (by decide)

/-- C9. During a status-evaluation pass over a FILLED signal, the
take-profit check precedes the trailing-stop check: if one price tick
satisfies both conditions, the signal closes as WIN with close reason TP and
no TRAILING close occurs. -/
theorem C9_tp_before_trailing (s : Signal) (now p : ℚ) (trailing : Option ℚ)
    (hs : s.status = Status.FILLED) (hp : p ≠ 0)
    (htp : is_take_profit_hit s p = true)
    (_hhit : is_trailing_stop_hit s trailing p = true) :
    check_signal_status now (some p) trailing s =
      { effects := [Effect.updateStatus s.code Status.WIN (some p) (some CloseReason.TP) none,
                    Effect.addExecution s.code "TP" p s.quantity],
        signal := s, trailing := trailing, remove := true } := by
  simp [check_signal_status, hs, hp, htp, handle_take_profit]

/-- Witness for C9: price 111 simultaneously beats take-profit 110 and
crosses trailing stop 112 on a FILLED LONG signal; the close is WIN/TP. -/
theorem C9_witness :
    check_signal_status 0 (some 111) (some 112) exSigL =
      { effects := [Effect.updateStatus "S1" Status.WIN (some 111) (some CloseReason.TP) none,
                    Effect.addExecution "S1" "TP" 111 2],
        signal := exSigL, trailing := some 112, remove := true } :=
  C9_tp_before_trailing exSigL 0 111 (some 112) rfl (by norm_num) (by decide) (by decide)

/-- C1 (amended). A cooldown for (symbol, mode) lasting the mode's cooldown
duration is registered when a FILLED signal with no active trailing stop is
closed LOSE by a stop-loss hit; when a trailing-stop entry is present — in
particular on every trailing-stop close, including those classified LOSE —
the status check registers no cooldown at all. -/
theorem C1_amended (s : Signal) (now p t : ℚ)
    (hs : s.status = Status.FILLED) (hp : p ≠ 0)
    (htp : is_take_profit_hit s p = false)
    (hsl : is_stop_loss_hit s p = true) :
    Effect.addCooldown s.symbol s.mode "LOSS" (now + (modeConfig s.mode).cooldown_minutes)
      ∈ (check_signal_status now (some p) none s).effects
    ∧ ∀ e ∈ (check_signal_status now (some p) (some t) s).effects,
        e.isCooldown = false := by
  constructor
  · simp [check_signal_status, hs, hp, htp, hsl, handle_stop_loss]
  · intro e he
    by_cases hh : is_trailing_stop_hit s (some t) p = true
    · simp [check_signal_status, hs, hp, htp, hh, handle_trailing_stop] at he
      rcases he with he | he <;> subst he <;> rfl
    · simp [check_signal_status, hs, hp, htp, hh] at he

/-- Witness for C1 (amended): an SL-hit LOSE close at price 94 on a FILLED
LONG scalping signal registers the 15-minute cooldown, while the same tick
against an active trailing stop registers none. -/
theorem C1_amended_witness :
    Effect.addCooldown "BTCUSDT" Mode.SCALPING "LOSS"
        (0 + (modeConfig Mode.SCALPING).cooldown_minutes)
      ∈ (check_signal_status 0 (some 94) none exSigL).effects
    ∧ ∀ e ∈ (check_signal_status 0 (some 94) (some 95) exSigL).effects,
        e.isCooldown = false :=
  C1_amended exSigL 0 94 95 rfl (by norm_num) (by decide) (by decide)

/-- The direction loop returns LONG's candidate as soon as LONG clears the
score bar and its candidate construction succeeds, regardless of SHORT. -/
theorem detect_loop_long_first (score_fn : Direction → ℕ) (score_min : ℕ)
    (build : Direction → ℕ → Option ScoredCandidate) (c : ScoredCandidate)
    (h : score_fn Direction.LONG ≥ score_min)
    (hb : build Direction.LONG (score_fn Direction.LONG) = some c) :
    detect_loop score_fn score_min build = some c := by
  unfold detect_loop
  dsimp only
  rw [if_pos h, hb]

/-- Candidate construction succeeds exactly when the entry price is truthy,
and then carries the requested direction and score. -/
theorem build_candidate_entry (m : Mode) (close : ℚ) (ema : Option ℚ)
    (atr : Option ℚ) (d : Direction) (sc : ℕ)
    (h : calculate_entry_price close ema m ≠ 0) :
    build_candidate m close ema atr d sc =
      some { mode := m, direction := d,
             entry_price := calculate_entry_price close ema m,
             stop_loss :=
               (calculate_sl_tp atr (calculate_entry_price close ema m) d (modeConfig m)).1,
             take_profit :=
               (calculate_sl_tp atr (calculate_entry_price close ema m) d (modeConfig m)).2,
             quantity :=
               calculate_quantity (calculate_entry_price close ema m)
                 (calculate_sl_tp atr (calculate_entry_price close ema m) d (modeConfig m)).1,
             score := sc, confidence := get_confidence_level sc } := by
  simp only [build_candidate]
  rw [if_neg h]

/-- C8. In every mode's scoring loop the directions are tried in the fixed
order LONG, SHORT: whenever LONG's accumulated score meets the mode's
minimum (and the shared, direction-independent entry price is truthy), the
loop returns immediately with a LONG candidate carrying LONG's score — for
arbitrary oracle inputs, so in particular also when SHORT's score would have
met the threshold too. -/
theorem C8_long_before_short (i1 : ScalpInputs) (i2 : IntradayInputs) (i3 : SwingInputs)
    (h1 : scalping_score i1 Direction.LONG ≥ (modeConfig Mode.SCALPING).score_min)
    (e1 : calculate_entry_price i1.close i1.ema_50 Mode.SCALPING ≠ 0)
    (h2 : intraday_score i2 Direction.LONG ≥ (modeConfig Mode.INTRADAY).score_min)
    (e2 : calculate_entry_price i2.close i2.ema_50 Mode.INTRADAY ≠ 0)
    (h3 : swing_score i3 Direction.LONG ≥ (modeConfig Mode.SWING).score_min)
    (e3 : calculate_entry_price i3.close i3.ema_50 Mode.SWING ≠ 0) :
    (∃ c, detect_scalping_signal i1 = some c ∧ c.direction = Direction.LONG
       ∧ c.score = scalping_score i1 Direction.LONG)
    ∧ (∃ c, detect_intraday_signal i2 = some c ∧ c.direction = Direction.LONG
       ∧ c.score = intraday_score i2 Direction.LONG)
    ∧ (∃ c, detect_swing_signal i3 = some c ∧ c.direction = Direction.LONG
       ∧ c.score = swing_score i3 Direction.LONG) := by
  have d1 := detect_loop_long_first _ _ _ _ h1
    (build_candidate_entry Mode.SCALPING i1.close i1.ema_50 i1.atr Direction.LONG
      (scalping_score i1 Direction.LONG) e1)
  have d2 := detect_loop_long_first _ _ _ _ h2
    (build_candidate_entry Mode.INTRADAY i2.close i2.ema_50 i2.atr Direction.LONG
      (intraday_score i2 Direction.LONG) e2)
  have d3 := detect_loop_long_first _ _ _ _ h3
    (build_candidate_entry Mode.SWING i3.close i3.ema_50 i3.atr Direction.LONG
      (swing_score i3 Direction.LONG) e3)
  exact ⟨⟨_, d1, rfl, rfl⟩, ⟨_, d2, rfl, rfl⟩, ⟨_, d3, rfl, rfl⟩⟩

/-- Scalping oracle inputs whose LONG direction scores 75 (≥ 55). -/
def exScalpIn : ScalpInputs :=
  { trend_bias := Direction.LONG, adx := 25, volume_valid := true,
    rsi_cross_up := true, rsi_cross_down := false, stoch_long := true,
    stoch_short := false, ema_retest := true, bb_long := true,
    bb_short := false, close := 100, ema_50 := some 100, atr := some 5 }

/-- Intraday oracle inputs whose LONG direction scores 85 (≥ 60). -/
def exIntraIn : IntradayInputs :=
  { trend_bias := Direction.LONG, macd_primary_up := true,
    macd_primary_down := false, macd_confirm_up := false,
    macd_confirm_down := false, volume_valid := true, ema_retest := true,
    fib_conf := true, adx := some 25, rsi := some 50, close := 100,
    ema_50 := some 100, atr := some 5 }

/-- Swing oracle inputs whose LONG direction scores 90 (≥ 65). -/
def exSwingIn : SwingInputs :=
  { trend_bias := Direction.LONG, macd_up := true, macd_down := false,
    obv_long := true, obv_short := false, volume_valid := true,
    adx := some 20, vp_conf := true, swing_conf_long := true,
    swing_conf_short := false, close := 100, ema_50 := some 100,
    atr := some 5 }

/-- Witness for C8 at concrete oracle inputs for all three modes. -/
theorem C8_witness :
    (∃ c, detect_scalping_signal exScalpIn = some c ∧ c.direction = Direction.LONG
       ∧ c.score = scalping_score exScalpIn Direction.LONG)
    ∧ (∃ c, detect_intraday_signal exIntraIn = some c ∧ c.direction = Direction.LONG
       ∧ c.score = intraday_score exIntraIn Direction.LONG)
    ∧ (∃ c, detect_swing_signal exSwingIn = some c ∧ c.direction = Direction.LONG
       ∧ c.score = swing_score exSwingIn Direction.LONG) :=
  C8_long_before_short exScalpIn exIntraIn exSwingIn
    (by decide) (by norm_num [calculate_entry_price, exScalpIn])
    (by decide) (by decide)
    (by decide) (by decide)

/-- The direction ordering invariant on a scored candidate, as a decidable
check: LONG needs `stop_loss < entry < take_profit`, SHORT needs
`take_profit < entry < stop_loss`. -/
def candidate_ordering_ok (c : ScoredCandidate) : Bool :=
  match c.direction with
  | Direction.LONG => c.stop_loss < c.entry_price ∧ c.entry_price < c.take_profit
  | Direction.SHORT => c.take_profit < c.entry_price ∧ c.entry_price < c.stop_loss

/-- Every mode profile has positive stop-loss and take-profit ATR
multipliers. -/
theorem mode_mults_pos (m : Mode) :
    0 < (modeConfig m).sl_atr_mult ∧ 0 < (modeConfig m).tp_atr_mult_min := by
  cases m <;> norm_num [modeConfig]

/-- Inversion for the candidate-construction tail: a returned candidate is
exactly the record built from the computed entry, stop/target pair, quantity
and confidence. -/
theorem build_candidate_inv (m : Mode) (close : ℚ) (ema : Option ℚ)
    (atr : Option ℚ) (d : Direction) (sc : ℕ) (c : ScoredCandidate)
    (h : build_candidate m close ema atr d sc = some c) :
    c = { mode := m, direction := d,
          entry_price := calculate_entry_price close ema m,
          stop_loss :=
            (calculate_sl_tp atr (calculate_entry_price close ema m) d (modeConfig m)).1,
          take_profit :=
            (calculate_sl_tp atr (calculate_entry_price close ema m) d (modeConfig m)).2,
          quantity :=
            calculate_quantity (calculate_entry_price close ema m)
              (calculate_sl_tp atr (calculate_entry_price close ema m) d (modeConfig m)).1,
          score := sc, confidence := get_confidence_level sc } := by
  by_cases he : calculate_entry_price close ema m = 0
  · simp [build_candidate, he] at h
  · rw [build_candidate_entry m close ema atr d sc he] at h
    exact (Option.some_inj.mp h).symm

/-- A candidate built with an available, strictly positive ATR value
satisfies the direction ordering invariant. -/
theorem candidate_ordering_of_pos_atr (m : Mode) (close : ℚ) (ema : Option ℚ)
    (a : ℚ) (d : Direction) (sc : ℕ) (c : ScoredCandidate) (ha : 0 < a)
    (h : build_candidate m close ema (some a) d sc = some c) :
    candidate_ordering_ok c = true := by
  have hc := build_candidate_inv m close ema (some a) d sc c h
  subst hc
  have hm := mode_mults_pos m
  cases d with
  | LONG =>
    dsimp only [candidate_ordering_ok, calculate_sl_tp]
    exact decide_eq_true
      ⟨by linarith [mul_pos ha hm.1], by linarith [mul_pos ha hm.2]⟩
  | SHORT =>
    dsimp only [candidate_ordering_ok, calculate_sl_tp]
    exact decide_eq_true
      ⟨by linarith [mul_pos ha hm.2], by linarith [mul_pos ha hm.1]⟩

/-- A candidate returned by the direction loop comes from the LONG attempt
or from the SHORT attempt. -/
theorem detect_loop_cases (score_fn : Direction → ℕ) (score_min : ℕ)
    (build : Direction → ℕ → Option ScoredCandidate) (c : ScoredCandidate)
    (h : detect_loop score_fn score_min build = some c) :
    build Direction.LONG (score_fn Direction.LONG) = some c
    ∨ build Direction.SHORT (score_fn Direction.SHORT) = some c := by
  unfold detect_loop at h
  dsimp only at h
  by_cases hL : score_fn Direction.LONG ≥ score_min
  · rw [if_pos hL] at h
    cases hbL : build Direction.LONG (score_fn Direction.LONG) with
    | some c2 =>
      rw [hbL] at h
      dsimp only at h
      exact Or.inl h
    | none =>
      rw [hbL] at h
      dsimp only at h
      by_cases hS : score_fn Direction.SHORT ≥ score_min
      · rw [if_pos hS] at h
        exact Or.inr h
      · rw [if_neg hS] at h
        exact absurd h (by simp)
  · rw [if_neg hL] at h
    dsimp only at h
    by_cases hS : score_fn Direction.SHORT ≥ score_min
    · rw [if_pos hS] at h
      exact Or.inr h
    · rw [if_neg hS] at h
      exact absurd h (by simp)

/-- C3 (amended). Every candidate returned by any of the three scoring loops
with an available, strictly positive ATR value satisfies the direction
ordering invariant (LONG: `stop_loss < entry < take_profit`; SHORT:
`take_profit < entry < stop_loss`). With an ATR value of exactly zero the
three prices coincide and the strict ordering fails
(see `C3_counterexample`); the percent-of-entry fallback for an unreadable
ATR never yields a returned candidate, since a missing ATR column entails a
missing volume-ratio column and the volume gate aborts before scoring. -/
theorem C3_amended (i1 : ScalpInputs) (i2 : IntradayInputs) (i3 : SwingInputs)
    (a1 a2 a3 : ℚ)
    (h1 : i1.atr = some a1) (p1 : 0 < a1)
    (h2 : i2.atr = some a2) (p2 : 0 < a2)
    (h3 : i3.atr = some a3) (p3 : 0 < a3) :
    Option.all candidate_ordering_ok (detect_scalping_signal i1) = true
    ∧ Option.all candidate_ordering_ok (detect_intraday_signal i2) = true
    ∧ Option.all candidate_ordering_ok (detect_swing_signal i3) = true := by
  refine ⟨?_, ?_, ?_⟩
  · cases hdet : detect_scalping_signal i1 with
    | none => rfl
    | some c =>
      unfold detect_scalping_signal at hdet
      rw [h1] at hdet
      rcases detect_loop_cases _ _ _ _ hdet with hb | hb
      · exact candidate_ordering_of_pos_atr _ _ _ _ _ _ _ p1 hb
      · exact candidate_ordering_of_pos_atr _ _ _ _ _ _ _ p1 hb
  · cases hdet : detect_intraday_signal i2 with
    | none => rfl
    | some c =>
      unfold detect_intraday_signal at hdet
      rw [h2] at hdet
      rcases detect_loop_cases _ _ _ _ hdet with hb | hb
      · exact candidate_ordering_of_pos_atr _ _ _ _ _ _ _ p2 hb
      · exact candidate_ordering_of_pos_atr _ _ _ _ _ _ _ p2 hb
  · cases hdet : detect_swing_signal i3 with
    | none => rfl
    | some c =>
      unfold detect_swing_signal at hdet
      rw [h3] at hdet
      rcases detect_loop_cases _ _ _ _ hdet with hb | hb
      · exact candidate_ordering_of_pos_atr _ _ _ _ _ _ _ p3 hb
      · exact candidate_ordering_of_pos_atr _ _ _ _ _ _ _ p3 hb

/-- Witness for C3 (amended) at concrete oracle inputs with ATR value 5 for
all three modes. -/
theorem C3_amended_witness :
    Option.all candidate_ordering_ok (detect_scalping_signal exScalpIn) = true
    ∧ Option.all candidate_ordering_ok (detect_intraday_signal exIntraIn) = true
    ∧ Option.all candidate_ordering_ok (detect_swing_signal exSwingIn) = true :=
  C3_amended exScalpIn exIntraIn exSwingIn 5 5 5
    rfl (by norm_num) rfl (by norm_num) rfl (by norm_num)
